import Mathlib

/-!
Verification of the No Thanks! server core (src/server/game.js and
src/server/bot.js) against its natural-language specification.

The embedding is shallow: every definition below transcribes one JavaScript
function from the repository, with JavaScript numbers modelled as exact
integers (Nat / Int) on the game side and exact rationals (Rat) on the bot
side, in-place mutation modelled by explicit state passing, and the two
Fisher-Yates shuffles in Game.start modelled by passing the shuffled lists
as parameters constrained to be permutations of the inputs.
-/

/-! ## Game engine (src/server/game.js) -/

/-- One entry of Game.players (game.js line 68): plain record
with id, nickname, tokens, cards and the isBot flag. -/
structure Player where
  id : String
  nickname : String
  tokens : Nat
  cards : List Int
  isBot : Bool
deriving DecidableEq, Repr

/-- Game.gameSettings (game.js lines 43-49). The two display flags and the
turn time limit never influence the engine transitions modelled here but are
kept for completeness. -/
structure GameSettings where
  removedCount : Nat
  initialTokens : Nat
  showOpponentTokens : Bool
  showRealTimeScore : Bool
  turnTimeLimit : Nat
deriving DecidableEq, Repr

/-- The mutable state of the Game class (game.js reset, lines 33-55),
without the timer bookkeeping fields (turnTimer, turnStartTime), which are
orchestration-only and never read by the transitions modelled here. -/
structure Game where
  players : List Player
  deck : List Int
  removedCards : List Int
  currentCard : Option Int
  pileTokens : Nat
  currentPlayerIndex : Nat
  started : Bool
  hostId : Option String
  gameSettings : GameSettings
deriving DecidableEq, Repr

/-- Return value of Game.pass / Game.takeCard: either an error object
with a message, or a gameOver flag. -/
inductive ActionResult where
  | err (msg : String)
  | ok (gameOver : Bool)
deriving DecidableEq, Repr

/-- True exactly on the error results. -/
def ActionResult.isErr : ActionResult → Bool
  | .err _ => true
  | .ok _ => false

/-- Game.takeCard (game.js lines 201-225). The JS method mutates this and
returns a result object; here it returns the new state and the result.
Indexing players with the current index models this.players[this.currentPlayerIndex],
which is undefined (hence the error branch) when out of range. -/
def Game.takeCard (g : Game) (id : String) : Game × ActionResult :=
  if !g.started then (g, .err "Game not started")
  else
    match g.players[g.currentPlayerIndex]? with
    | none => (g, .err "Not your turn")
    | some player =>
      if player.id ≠ id then (g, .err "Not your turn")
      else
        let player := match g.currentCard with
          | some c => { player with cards := player.cards ++ [c] }
          | none => player
        let player := if g.pileTokens > 0 then { player with tokens := player.tokens + g.pileTokens } else player
        let players := g.players.set g.currentPlayerIndex player
        match g.deck with
        | [] =>
          ({ g with players := players, pileTokens := if g.pileTokens > 0 then 0 else g.pileTokens,
                    currentCard := none, deck := [], started := false }, .ok true)
        | c :: rest =>
          ({ g with players := players, pileTokens := if g.pileTokens > 0 then 0 else g.pileTokens,
                    currentCard := some c, deck := rest }, .ok false)

/-- Game.pass (game.js lines 173-189): with tokens, pay one token onto the
pile and advance the turn; with zero tokens the call is delegated to
Game.takeCard unchanged. -/
def Game.pass (g : Game) (id : String) : Game × ActionResult :=
  if !g.started then (g, .err "Game not started")
  else
    match g.players[g.currentPlayerIndex]? with
    | none => (g, .err "Not your turn")
    | some player =>
      if player.id ≠ id then (g, .err "Not your turn")
      else if player.tokens > 0 then
        let players := g.players.set g.currentPlayerIndex { player with tokens := player.tokens - 1 }
        ({ g with players := players, pileTokens := g.pileTokens + 1,
                  currentPlayerIndex := (g.currentPlayerIndex + 1) % players.length }, .ok false)
      else
        Game.takeCard g id

/-- The freshly built deck of game.js lines 122-123: cards 3 through 35. -/
def initialDeck : List Int := (List.range 33).map (fun i => (i : Int) + 3)

/-- Game.start (game.js lines 118-154). The two in-place shuffles
(Fisher-Yates over the deck, shufflePlayerOrder over the players) are
modelled by the parameters shuffledDeck and shuffledPlayers; reachability
below constrains them to be permutations of initialDeck and of g.players.
After the splice of removedCount cards, the first card of the remaining
deck is drawn as currentCard (nextCard, lines 160-162). -/
def Game.start (g : Game) (shuffledDeck : List Int) (shuffledPlayers : List Player) : Game × Bool :=
  if g.started then (g, false)
  else
    let removed := shuffledDeck.take g.gameSettings.removedCount
    let remaining := shuffledDeck.drop g.gameSettings.removedCount
    let players := shuffledPlayers.map fun p => { p with tokens := g.gameSettings.initialTokens, cards := ([] : List Int) }
    match remaining with
    | [] =>
      ({ g with players := players, deck := [], removedCards := removed, currentCard := none,
                pileTokens := 0, currentPlayerIndex := 0, started := true }, true)
    | c :: rest =>
      ({ g with players := players, deck := rest, removedCards := removed, currentCard := some c,
                pileTokens := 0, currentPlayerIndex := 0, started := true }, true)

/-- Game.removePlayer (game.js lines 84-112): splice the player out, hand
the host role to the first remaining non-bot (falling back to players[0])
when the host left, and adjust currentPlayerIndex. -/
def Game.removePlayer (g : Game) (id : String) : Game :=
  match g.players.findIdx? (fun p => p.id = id) with
  | none => g
  | some idx =>
    let wasHost := g.hostId = some id
    let remaining := g.players.eraseIdx idx
    let newHostId :=
      if wasHost ∧ remaining.length > 0 then
        match remaining.find? (fun p => !p.isBot) with
        | some p => some p.id
        | none => remaining.head?.map Player.id
      else g.hostId
    let newIndex :=
      if g.started then
        if idx < g.currentPlayerIndex then g.currentPlayerIndex - 1
        else if idx = g.currentPlayerIndex ∧ g.currentPlayerIndex ≥ remaining.length then 0
        else g.currentPlayerIndex
      else g.currentPlayerIndex
    { g with players := remaining, hostId := newHostId, currentPlayerIndex := newIndex }

/-! ## Scoring (game.js calculateScores, lines 232-260) -/

/-- Ordered insertion used to model the ascending numeric sort
[...p.cards].sort((a, b) => a - b); inserting before the first element
that is not smaller keeps the sort stable. -/
def insertAsc {α : Type} [LinearOrder α] (x : α) : List α → List α
  | [] => [x]
  | y :: ys => if x ≤ y then x :: y :: ys else y :: insertAsc x ys

/-- Stable ascending sort (model of Array.prototype.sort with a numeric
comparator, which ECMAScript guarantees to be stable). -/
def sortAsc {α : Type} [LinearOrder α] : List α → List α
  | [] => []
  | x :: xs => insertAsc x (sortAsc xs)

/-- The forEach accumulation of game.js lines 238-243 after the head
element: each card is added unless it is exactly prev + 1. -/
def runSumFrom (prev : Int) : List Int → Int
  | [] => 0
  | c :: rest => (if c = prev + 1 then 0 else c) + runSumFrom c rest

/-- The full forEach accumulation of game.js lines 236-243, starting with
prev = null so the first card is always added. -/
def runSum : List Int → Int
  | [] => 0
  | c :: rest => c + runSumFrom c rest

/-- The per-player score of game.js lines 234-245: run sum of the
ascending sort minus the token count. -/
def scoreOf (cards : List Int) (tokens : Nat) : Int :=
  runSum (sortAsc cards) - (tokens : Int)

/-- One entry of the array calculateScores returns (game.js lines 246-251,
rank added at lines 256-258). -/
structure ScoreEntry where
  nickname : String
  score : Int
  cards : List Int
  tokens : Nat
  rank : Nat
deriving DecidableEq, Repr

/-- Stable insertion used to model results.sort((a, b) => a.score - b.score). -/
def insertByScore (x : ScoreEntry) : List ScoreEntry → List ScoreEntry
  | [] => [x]
  | y :: ys => if x.score ≤ y.score then x :: y :: ys else y :: insertByScore x ys

/-- Stable sort of the result entries by ascending score. -/
def sortByScore : List ScoreEntry → List ScoreEntry
  | [] => []
  | x :: xs => insertByScore x (sortByScore xs)

/-- Game.calculateScores (game.js lines 232-260): map each player to a
result entry, sort ascending by score, then assign 1-based ranks. -/
def Game.calculateScores (g : Game) : List ScoreEntry :=
  let results := g.players.map fun p =>
    { nickname := p.nickname, score := scoreOf p.cards p.tokens, cards := p.cards,
      tokens := p.tokens, rank := 0 : ScoreEntry }
  (sortByScore results).enum.map fun e => { e.2 with rank := e.1 + 1 }

/-! ## Reachability of in-game states -/

/-- States reachable by the engine once a round can begin: any non-started
lobby state may be started (with the two shuffles producing arbitrary
permutations), after which pass, takeCard and removePlayer may be called
with arbitrary ids. -/
inductive Reachable : Game → Prop where
  | init (g : Game) (sd : List Int) (sp : List Player) :
      g.started = false → sd.Perm initialDeck → sp.Perm g.players →
      Reachable (Game.start g sd sp).1
  | stepPass (g : Game) (id : String) : Reachable g → Reachable (Game.pass g id).1
  | stepTake (g : Game) (id : String) : Reachable g → Reachable (Game.takeCard g id).1
  | stepRemove (g : Game) (id : String) : Reachable g → Reachable (Game.removePlayer g id)

/-- Reachability restricted to the two turn actions, i.e. without
mid-game disconnections. -/
inductive ReachableNoRemove : Game → Prop where
  | init (g : Game) (sd : List Int) (sp : List Player) :
      g.started = false → sd.Perm initialDeck → sp.Perm g.players →
      ReachableNoRemove (Game.start g sd sp).1
  | stepPass (g : Game) (id : String) : ReachableNoRemove g → ReachableNoRemove (Game.pass g id).1
  | stepTake (g : Game) (id : String) : ReachableNoRemove g → ReachableNoRemove (Game.takeCard g id).1

/-- All card copies held by the players, as a multiset. -/
def playersCards (ps : List Player) : Multiset Int :=
  (ps.map fun p => (p.cards : Multiset Int)).sum

/-- Every card in play: held cards, deck, removed cards and the face-up
card (if any), as a multiset. -/
def cardMultiset (g : Game) : Multiset Int :=
  playersCards g.players + (g.deck : Multiset Int) + (g.removedCards : Multiset Int) +
    (g.currentCard.toList : Multiset Int)

/-! ## Decision policy engine (src/server/bot.js), medium-difficulty pipeline

JavaScript numbers are modelled as exact rationals. Math.random() outcomes
are passed in as parameters. The definitions below specialise
Bot.makeDecision to difficulty 'medium' (playStyle drawn from the medium
style list of selectPlayStyle, bot.js line 36). adaptStrategyToSituation
(bot.js lines 137-168) only writes currentStrategy and strategyHistory,
which no function of this pipeline reads, so it is omitted. -/

/-- The action a bot decision returns. -/
inductive BotAction where
  | take
  | pass
deriving DecidableEq, Repr

/-- The medium-difficulty play styles (selectPlayStyle, bot.js line 36). -/
inductive MediumStyle where
  | conservative
  | greedy
  | sequenceFocused
  | random
deriving DecidableEq, Repr

/-- The personality record generated at construction (generatePersonality,
bot.js lines 48-59); each field is one Math.random() outcome. -/
structure BotPersonality where
  riskTolerance : Rat
  greediness : Rat
  patience : Rat
  bluffing : Rat
  vindictiveness : Rat
  adaptability : Rat
  socialAwareness : Rat
  sequenceObsession : Rat
deriving DecidableEq, Repr

/-- The style modifier record of getStyleModifiers (bot.js lines 173-229). -/
structure StyleModifiers where
  conservatism : Rat
  tokenGreed : Rat
  sequenceFocus : Rat
  psychologicalTendency : Rat
  riskTaking : Rat
deriving DecidableEq, Repr

/-- getStyleModifiers (bot.js lines 173-229) restricted to the medium
styles; 'random' matches no case and keeps the 0.5 defaults. -/
def getStyleModifiers : MediumStyle → StyleModifiers
  | .conservative =>
    { conservatism := 0.2, tokenGreed := 0.5, sequenceFocus := 0.5,
      psychologicalTendency := 0.5, riskTaking := 0.1 }
  | .greedy =>
    { conservatism := 0.7, tokenGreed := 0.9, sequenceFocus := 0.5,
      psychologicalTendency := 0.5, riskTaking := 0.5 }
  | .sequenceFocused =>
    { conservatism := 0.5, tokenGreed := 0.3, sequenceFocus := 0.9,
      psychologicalTendency := 0.5, riskTaking := 0.5 }
  | .random =>
    { conservatism := 0.5, tokenGreed := 0.5, sequenceFocus := 0.5,
      psychologicalTendency := 0.5, riskTaking := 0.5 }

/-- The record getPersonalityModifiers returns (bot.js lines 234-245). -/
structure PersonalityModifiers where
  riskBonus : Rat
  greedBonus : Rat
  patienceBonus : Rat
  bluffBonus : Rat
  vindictiveBonus : Rat
  adaptBonus : Rat
  socialBonus : Rat
  sequenceBonus : Rat
deriving DecidableEq, Repr

/-- getPersonalityModifiers (bot.js lines 234-245). -/
def getPersonalityModifiers (p : BotPersonality) : PersonalityModifiers :=
  { riskBonus := p.riskTolerance * 2 - 1,
    greedBonus := p.greediness * 3 - 1.5,
    patienceBonus := p.patience * 2 - 1,
    bluffBonus := p.bluffing * 4 - 2,
    vindictiveBonus := p.vindictiveness * 2 - 1,
    adaptBonus := p.adaptability * 1.5 - 0.75,
    socialBonus := p.socialAwareness * 2 - 1,
    sequenceBonus := p.sequenceObsession * 3 - 1.5 }

/-- One player entry as seen through Game.getState (game.js lines 439-445):
it carries id, tokens, cards and isBot but no difficulty field, so the
difficulty an observing bot reads from it is undefined (none). -/
structure ViewPlayer where
  id : String
  tokens : Rat
  cards : List Rat
  isBot : Bool
  difficulty : Option String
deriving DecidableEq, Repr

/-- The settings fields of the state snapshot that the decision pipeline
reads. -/
structure BotSettings where
  initialTokens : Rat
  showOpponentTokens : Bool
deriving DecidableEq, Repr

/-- The gameState snapshot handed to Bot.makeDecision (Game.getState,
game.js lines 437-456), restricted to the fields the medium pipeline reads. -/
structure GameStateView where
  players : List ViewPlayer
  currentCard : Rat
  pileTokens : Rat
  deckSize : Rat
  removedCount : Rat
  gameSettings : BotSettings
deriving DecidableEq, Repr

/-- this.gameInfo as set at the top of makeDecision (bot.js lines 70-75);
removedCount || 9 is the JavaScript or-default, taking 9 when removedCount
is the falsy 0. -/
structure GameInfo where
  deckSize : Rat
  removedCount : Rat
  totalRemovedCards : Rat
  originalDeckSize : Rat
deriving DecidableEq, Repr

/-- Construction of this.gameInfo (bot.js lines 70-75). -/
def mkGameInfo (gs : GameStateView) : GameInfo :=
  { deckSize := gs.deckSize, removedCount := gs.removedCount,
    totalRemovedCards := if gs.removedCount = 0 then 9 else gs.removedCount,
    originalDeckSize := 33 }

/-- estimateGameProgress (bot.js lines 3531-3546). Inside the decision
pipeline this.gameInfo is always set (makeDecision assigns it first), so
only the gameInfo branch is reachable. -/
def estimateGameProgress (gi : GameInfo) : Rat :=
  let actualPlayableCards := gi.originalDeckSize - gi.totalRemovedCards
  let cardsPlayed := actualPlayableCards - gi.deckSize
  min 1 (cardsPlayed / actualPlayableCards)

/-- cardPreferences of a player profile (initializePlayerProfile,
bot.js lines 600-604). -/
structure CardPrefs where
  lowCardTendency : Rat
  riskTolerance : Rat
  sequenceHunter : Rat
deriving DecidableEq, Repr

/-- tokenBehavior of a player profile (bot.js lines 607-611). -/
structure TokenBehavior where
  conservation : Rat
  aggressiveness : Rat
  panicThreshold : Rat
deriving DecidableEq, Repr

/-- psychology of a player profile (bot.js lines 614-618). -/
structure PsychProfile where
  bluffable : Rat
  stubborn : Rat
  reactive : Rat
deriving DecidableEq, Repr

/-- stats of a player profile (bot.js lines 621-627). -/
structure ProfileStats where
  totalDecisions : Rat
  passCount : Rat
  takeCount : Rat
  averageCardValue : Rat
  averageTokensUsed : Rat
deriving DecidableEq, Repr

/-- One per-opponent profile (initializePlayerProfile, bot.js lines
596-636); lastUpdate (a wall-clock timestamp never read by decisions) is
omitted. -/
structure PlayerProfile where
  cardPreferences : CardPrefs
  tokenBehavior : TokenBehavior
  psychology : PsychProfile
  stats : ProfileStats
  weaknesses : List String
deriving DecidableEq, Repr

/-- The default profile a fresh opponent receives (bot.js lines 598-634). -/
def defaultProfile : PlayerProfile :=
  { cardPreferences := { lowCardTendency := 0.5, riskTolerance := 0.5, sequenceHunter := 0.5 },
    tokenBehavior := { conservation := 0.5, aggressiveness := 0.5, panicThreshold := 3 },
    psychology := { bluffable := 0.5, stubborn := 0.5, reactive := 0.5 },
    stats := { totalDecisions := 0, passCount := 0, takeCount := 0,
               averageCardValue := 0, averageTokensUsed := 0 },
    weaknesses := [] }

/-- this.playerProfiles modelled as an association list keyed by player id. -/
def getProfile (profiles : List (String × PlayerProfile)) (pid : String) : Option PlayerProfile :=
  (profiles.find? fun e => e.1 = pid).map fun e => e.2

/-- Overwrite the profile stored under pid (Map.set on an existing key). -/
def setProfile (profiles : List (String × PlayerProfile)) (pid : String)
    (prof : PlayerProfile) : List (String × PlayerProfile) :=
  profiles.map fun e => if e.1 = pid then (e.1, prof) else e

/-- initializePlayerProfile (bot.js lines 596-636): insert the default
profile when the id has none yet. -/
def initializePlayerProfile (profiles : List (String × PlayerProfile))
    (pid : String) : List (String × PlayerProfile) :=
  match getProfile profiles pid with
  | some _ => profiles
  | none => profiles ++ [(pid, defaultProfile)]

/-- The state a bot object carries into one makeDecision call: own public
fields, the constructor-time style and personality draws, and the
accumulated opponent profiles. -/
structure BotState where
  id : String
  tokens : Rat
  cards : List Rat
  playStyle : MediumStyle
  personality : BotPersonality
  profiles : List (String × PlayerProfile)
deriving DecidableEq, Repr

/-- assignBotPersonality (bot.js lines 435-456); the difficulty read from
the snapshot entry is undefined, so botPlayer.difficulty || 'medium'
defaults to 'medium'. Unknown strings match no case. -/
def assignBotPersonality (prof : PlayerProfile) (p : ViewPlayer) : PlayerProfile :=
  let botDifficulty := p.difficulty.getD "medium"
  if botDifficulty = "medium" then
    { prof with psychology := { prof.psychology with stubborn := 0.7 },
                tokenBehavior := { prof.tokenBehavior with conservation := 0.6 } }
  else if botDifficulty = "hard" then
    { prof with tokenBehavior := { prof.tokenBehavior with aggressiveness := 0.7 },
                cardPreferences := { prof.cardPreferences with riskTolerance := 0.6 } }
  else if botDifficulty = "expert" then
    { prof with psychology := { prof.psychology with reactive := 0.8 },
                cardPreferences := { prof.cardPreferences with sequenceHunter := 0.8 } }
  else prof

/-- analyzePlayerTendencies (bot.js lines 403-430): shift the stored
profile from the observed card average and token count, then give bot
opponents a difficulty-based personality. Reads player.tokens
unconditionally, with no showOpponentTokens guard. -/
def analyzePlayerTendencies (profiles : List (String × PlayerProfile))
    (p : ViewPlayer) : List (String × PlayerProfile) :=
  match getProfile profiles p.id with
  | none => profiles
  | some prof =>
    let prof :=
      if p.cards.length > 0 then
        let avgCard := p.cards.sum / (p.cards.length : Rat)
        if avgCard < 18 then
          { prof with cardPreferences :=
              { prof.cardPreferences with
                  lowCardTendency := prof.cardPreferences.lowCardTendency + 0.05,
                  riskTolerance := prof.cardPreferences.riskTolerance + 0.03 } }
        else if avgCard > 25 then
          { prof with cardPreferences :=
              { prof.cardPreferences with
                  riskTolerance := prof.cardPreferences.riskTolerance - 0.05 } }
        else prof
      else prof
    let tokenShare := p.tokens / 11
    let prof :=
      if tokenShare > 0.7 then
        { prof with tokenBehavior :=
            { prof.tokenBehavior with conservation := prof.tokenBehavior.conservation + 0.03 } }
      else if tokenShare < 0.3 then
        { prof with tokenBehavior :=
            { prof.tokenBehavior with aggressiveness := prof.tokenBehavior.aggressiveness + 0.05 } }
      else prof
    let prof := if p.isBot then assignBotPersonality prof p else prof
    setProfile profiles p.id prof

/-- updateAllPlayerProfiles (bot.js lines 360-383): initialise and update
the profile of every player other than the bot itself. The hasSequence /
gameProgress context built there is not read by analyzePlayerTendencies. -/
def updateAllPlayerProfiles (b : BotState) (gs : GameStateView) : List (String × PlayerProfile) :=
  gs.players.foldl
    (fun profiles p =>
      if p.id = b.id then profiles
      else analyzePlayerTendencies (initializePlayerProfile profiles p.id) p)
    b.profiles

/-- The adjacency loop of evaluateCardValue (bot.js lines 466-472):
+5 for every held card at distance exactly 1 from the candidate. -/
def connectionBonusCode (cards : List Rat) (card : Rat) : Rat :=
  (cards.map fun m => if |card - m| = 1 then (5 : Rat) else 0).sum

/-- evaluateCardValue (bot.js lines 461-479). The null/0 guard models
if (!card) return 0; the gameSettings and players arguments of the JS
method are never read by its body. -/
def evaluateCardValue (b : BotState) (card : Rat) : Rat :=
  if card = 0 then 0
  else
    -card + connectionBonusCode (sortAsc b.cards) card +
      (if card ≤ 10 then 3 else if card ≤ 20 then 1 else 0)

/-- evaluateTokenCost (bot.js lines 484-486). -/
def evaluateTokenCost (pileTokens : Rat) : Rat :=
  pileTokens * 2

/-- evaluateDynamicTokenValue (bot.js lines 492-534). Note the opponent
token average at lines 515-518: it reads every other player.tokens with no
showOpponentTokens guard. -/
def evaluateDynamicTokenValue (b : BotState) (gi : GameInfo) (gs : GameStateView) : Rat :=
  let gameProgress := estimateGameProgress gi
  let baseValue : Rat := 1.0
  let baseValue := if gameProgress < 0.3 then baseValue * 0.8
    else if gameProgress < 0.7 then baseValue * 1.2
    else baseValue * 1.5
  let myTokenShare := b.tokens / gs.gameSettings.initialTokens
  let scarcityMultiplier : Rat := if myTokenShare < 0.3 then 2.0
    else if myTokenShare < 0.6 then 1.3 else 1.0
  let baseValue := baseValue * scarcityMultiplier
  let opponents := gs.players.filter fun p => p.id ≠ b.id
  let baseValue :=
    if opponents.length > 0 then
      let avgOpponentTokens := (opponents.map fun p => p.tokens).sum / (opponents.length : Rat)
      let relativeAdvantage := b.tokens / (avgOpponentTokens + 1)
      if relativeAdvantage < 0.5 then baseValue * 1.8
      else if relativeAdvantage > 2.0 then baseValue * 0.7
      else baseValue
    else baseValue
  let cardsPerToken := gs.deckSize / (b.tokens + 1)
  if cardsPerToken > 5 then baseValue * 1.2 else baseValue

/-- calculateOpponentBurden (bot.js lines 558-587): the largest burden the
card would put on any opponent, starting the running maximum at 0. -/
def calculateOpponentBurden (b : BotState) (card totalPileTokens : Rat)
    (players : List ViewPlayer) : Rat :=
  players.foldl
    (fun maxBurden p =>
      if p.id = b.id then maxBurden
      else
        let burden := card - (p.cards.map fun c => if |card - c| = 1 then (5 : Rat) else 0).sum
          - totalPileTokens
        let tokenShare := p.tokens / 11
        let burden := if tokenShare < 0.3 then burden * 1.5 else burden
        max maxBurden burden)
    0

/-- calculateTokenROI (bot.js lines 539-553); its cardValue call passes
gameState where evaluateCardValue expects gameSettings, but that argument
is unread. -/
def calculateTokenRoi (b : BotState) (gi : GameInfo) (gs : GameStateView) : Rat :=
  let tokenValue := evaluateDynamicTokenValue b gi gs
  let cardValue := evaluateCardValue b gs.currentCard
  let investmentCost := tokenValue
  let avoidanceBenefit := max 0 (-cardValue)
  let opponentBurden := calculateOpponentBurden b gs.currentCard (gs.pileTokens + 1) gs.players
  let expectedReturn := avoidanceBenefit + opponentBurden * 0.3
  expectedReturn / investmentCost

/-- estimatePlayerTokens (bot.js lines 793-813): real value in public
mode, profile-based estimate otherwise, default 5. -/
def estimatePlayerTokens (profiles : List (String × PlayerProfile)) (gi : GameInfo)
    (gs : GameStateView) (pid : String) : Rat :=
  if gs.gameSettings.showOpponentTokens then
    match gs.players.find? (fun p => p.id = pid) with
    | some p => p.tokens
    | none => 5
  else
    match getProfile profiles pid with
    | some prof =>
      let gameProgress := estimateGameProgress gi
      let conservationRate := prof.tokenBehavior.conservation
      let expectedUsage := gameProgress * gs.gameSettings.initialTokens * (1 - conservationRate)
      max 0 (gs.gameSettings.initialTokens - expectedUsage)
    | none => 5

/-- isSequenceCard (bot.js lines 818-822); the && on
profile.stats.averageCardValue is the JavaScript truthiness test, false
exactly at 0. -/
def isSequenceCard (card : Rat) (prof : PlayerProfile) : Bool :=
  prof.stats.averageCardValue ≠ 0 ∧ |card - prof.stats.averageCardValue| ≤ 2

/-- calculatePlayerSpecificStrategy (bot.js lines 746-788). -/
def calculatePlayerSpecificStrategy (b : BotState) (profiles : List (String × PlayerProfile))
    (gi : GameInfo) (pid : String) (currentCard pileTokens : Rat) (gs : GameStateView) : Rat :=
  match getProfile profiles pid with
  | none => 0
  | some prof =>
    let strategyValue := prof.weaknesses.foldl
      (fun sv w =>
        if w = "TOKEN_HOARDER" then (if currentCard ≤ 20 then sv + 3 else sv)
        else if w = "TOO_PASSIVE" then (if currentCard ≤ 15 then sv + 2 else sv)
        else if w = "RISK_AVERSE" then (if currentCard > 20 then sv + 4 else sv)
        else if w = "SEQUENCE_OBSESSED" then (if isSequenceCard currentCard prof then sv + 5 else sv)
        else sv)
      0
    let tokenShare := estimatePlayerTokens profiles gi gs pid / gs.gameSettings.initialTokens
    let strategyValue :=
      if tokenShare < prof.tokenBehavior.panicThreshold / 11 then strategyValue + 3
      else strategyValue
    min strategyValue 8

/-- evaluateBasicSequence (bot.js lines 911-920): a single +3 as soon as
one held card is adjacent to the candidate (the loop breaks after one). -/
def evaluateBasicSequence (b : BotState) (card : Rat) : Rat :=
  if b.cards.any (fun m => |card - m| = 1) then 3 else 0

/-- evaluateBasicOpponentPressure (bot.js lines 925-934). -/
def evaluateBasicOpponentPressure (b : BotState) (players : List ViewPlayer) : Rat :=
  let pressure := players.foldl
    (fun acc p =>
      if p.id = b.id ∨ p.isBot then acc
      else if p.tokens ≤ 1 then acc + 2 else acc)
    0
  min pressure 3

/-- estimateCardFromValue (bot.js lines 939-942); Math.abs(cardValue) || 20
defaults to 20 when the absolute value is the falsy 0. -/
def estimateCardFromValue (cardValue : Rat) : Rat :=
  if |cardValue| = 0 then 20 else |cardValue|

/-- evaluateSequencePotential (bot.js lines 2013-2043): graded distance
bonuses plus a gap bonus when the candidate falls strictly between two
held cards at most 4 apart. -/
def evaluateSequencePotential (b : BotState) (card : Rat) : Rat :=
  let distanceBonus := (b.cards.map fun m =>
    if |card - m| = 1 then (5 : Rat)
    else if |card - m| = 2 then 2
    else if |card - m| = 3 then 0.5
    else 0).sum
  let sorted := sortAsc b.cards
  let gapBonus := (sorted.zip sorted.tail).foldl
    (fun acc pr =>
      if card > pr.1 ∧ card < pr.2 ∧ pr.2 - pr.1 ≤ 4 then acc + (5 - (pr.2 - pr.1)) else acc)
    0
  distanceBonus + gapBonus

/-- evaluateTokenFarmingOpportunity (bot.js lines 1960-1998). Reads every
other player.tokens with no showOpponentTokens guard. -/
def evaluateTokenFarmingOpportunity (b : BotState) (card pileTokens : Rat)
    (players : List ViewPlayer) : Rat :=
  let farmingValue : Rat := if card ≥ 25 then 4 else if card ≥ 20 then 2 else 0
  let farmingValue := farmingValue +
    (if pileTokens = 0 then 3 else if pileTokens = 1 then 2 else if pileTokens ≥ 4 then -1 else 0)
  let playersWithLowTokens := (players.filter fun p => p.id ≠ b.id ∧ p.tokens < 3).length
  let farmingValue := farmingValue + (playersWithLowTokens : Rat) * 1.5
  if b.tokens > 8 then farmingValue * 0.5
  else if b.tokens < 3 then farmingValue * 1.5
  else farmingValue

/-- applyPlayStyleStrategy (bot.js lines 250-355) restricted to the medium
styles; 'random' matches no case and contributes 0. -/
def applyPlayStyleStrategy (b : BotState) (gs : GameStateView) : Rat :=
  match b.playStyle with
  | .conservative =>
    (if gs.currentCard ≥ 20 then (-5 : Rat) else 0) + (if gs.pileTokens < 3 then -2 else 0)
  | .greedy =>
    gs.pileTokens * 1.5 + (if gs.pileTokens ≥ 4 then 3 else 0)
  | .sequenceFocused =>
    let sequenceValue := evaluateSequencePotential b gs.currentCard
    let tokenFarmingValue := evaluateTokenFarmingOpportunity b gs.currentCard gs.pileTokens gs.players
    let strategyValue :=
      if tokenFarmingValue > sequenceValue * 1.5 then tokenFarmingValue * 2 else sequenceValue * 2
    strategyValue + (if sequenceValue = 0 ∧ gs.currentCard ≥ 15 then -3 else 0)
  | .random => 0

/-- The advancedMetrics record assembled in makeDecision (bot.js lines
111-119). -/
structure DecisionMetrics where
  dynamicTokenValue : Rat
  tokenRoiVal : Rat
  competitiveStrategy : Rat
  pileTokens : Rat
  styleModifiers : StyleModifiers
  personalityModifiers : PersonalityModifiers
  styleStrategy : Rat
deriving DecidableEq, Repr

/-- mediumDecision (bot.js lines 831-906). rnd is the Math.random()
outcome of line 843. The JavaScript or-defaults (x || 0) on the metric
fields are the identity on every number except the 0 they map to itself,
so they are transcribed as the plain field reads; the truthiness test on
dynamicTokenValue (line 889) is kept. -/
def mediumDecision (b : BotState) (cardValue tokenCost : Rat) (gameSettings : BotSettings)
    (players : List ViewPlayer) (advancedMetrics : DecisionMetrics) (currentCard : Rat)
    (rnd : Rat) : BotAction :=
  if b.tokens = 0 then .take
  else
    let totalValue := cardValue + tokenCost
    let styleModifiers := advancedMetrics.styleModifiers
    let personalityModifiers := advancedMetrics.personalityModifiers
    let randomRange := 8 * (0.5 + styleModifiers.riskTaking * 0.5)
    let randomFactor := (rnd - 0.5) * randomRange
    let card := if currentCard ≠ 0 then currentCard else estimateCardFromValue cardValue
    let totalValue := totalValue +
      (if card ≤ 10 then 4
       else if card ≤ 15 then 2
       else if card ≥ 25 then
         -6 + advancedMetrics.pileTokens * 0.4 + evaluateBasicSequence b card * 0.8
       else if card ≥ 20 then
         -3 + advancedMetrics.pileTokens * 0.3 + evaluateBasicSequence b card * 0.6
       else if card > 15 then -1
       else 0)
    let tokenShare := b.tokens / gameSettings.initialTokens
    let totalValue := totalValue +
      (if tokenShare < 0.2 then -4 else if tokenShare < 0.4 then -2 else 0)
    let totalValue := totalValue + evaluateBasicSequence b card
    let totalValue := totalValue +
      (if gameSettings.showOpponentTokens then evaluateBasicOpponentPressure b players else 0)
    let dynamicAdjustment :=
      if advancedMetrics.dynamicTokenValue ≠ 0 then (advancedMetrics.dynamicTokenValue - 1.0) * 1.5
      else 0
    let competitiveBonus := advancedMetrics.competitiveStrategy * 0.3
    let styleStrategy := advancedMetrics.styleStrategy
    let personalityAdjustment := personalityModifiers.greedBonus * 1.5 +
      personalityModifiers.riskBonus * 2 + personalityModifiers.sequenceBonus * 0.8
    let finalThreshold := -4 + (styleModifiers.conservatism - 0.5) * 4
    let finalValue := totalValue + randomFactor + dynamicAdjustment + competitiveBonus +
      styleStrategy + personalityAdjustment
    if finalValue > finalThreshold then .take else .pass

/-- Bot.makeDecision (bot.js lines 66-132) specialised to difficulty
'medium': build gameInfo, update the opponent profiles, assemble the
metrics (with the medium 0.3 weight on competitiveStrategy, line 114) and
dispatch to mediumDecision. -/
def makeDecisionMedium (b : BotState) (gs : GameStateView) (rnd : Rat) : BotAction :=
  let gameInfo := mkGameInfo gs
  let profiles := updateAllPlayerProfiles b gs
  let styleModifiers := getStyleModifiers b.playStyle
  let personalityModifiers := getPersonalityModifiers b.personality
  let cardValue := evaluateCardValue b gs.currentCard
  let tokenCost := evaluateTokenCost gs.pileTokens
  let dynamicTokenValue := evaluateDynamicTokenValue b gameInfo gs
  let tokenRoiVal := calculateTokenRoi b gameInfo gs
  let competitiveStrategy := gs.players.foldl
    (fun acc p =>
      if p.id ≠ b.id then
        acc + calculatePlayerSpecificStrategy b profiles gameInfo p.id gs.currentCard gs.pileTokens gs
      else acc)
    0
  let styleStrategy := applyPlayStyleStrategy b gs
  let advancedMetrics : DecisionMetrics :=
    { dynamicTokenValue := dynamicTokenValue, tokenRoiVal := tokenRoiVal,
      competitiveStrategy := competitiveStrategy * 0.3, pileTokens := gs.pileTokens,
      styleModifiers := styleModifiers, personalityModifiers := personalityModifiers,
      styleStrategy := styleStrategy }
  mediumDecision b cardValue tokenCost gs.gameSettings gs.players advancedMetrics gs.currentCard rnd

/-- A state snapshot as a raw JavaScript object whose gameSettings field
may be missing (undefined). -/
structure GameStateViewJS where
  players : List ViewPlayer
  currentCard : Rat
  pileTokens : Rat
  deckSize : Rat
  removedCount : Rat
  gameSettings : Option BotSettings
deriving DecidableEq, Repr

/-- Reassemble a well-formed snapshot from a raw one whose gameSettings is
present. -/
def withSettings (gj : GameStateViewJS) (s : BotSettings) : GameStateView :=
  { players := gj.players, currentCard := gj.currentCard, pileTokens := gj.pileTokens,
    deckSize := gj.deckSize, removedCount := gj.removedCount, gameSettings := s }

/-- Bot.makeDecision on a raw snapshot, with JavaScript exceptions made
explicit. Every computation the medium pipeline performs before touching
gameSettings is total; the first gameSettings dereference
(gameSettings.initialTokens in evaluateDynamicTokenValue, bot.js line 509)
raises a TypeError when the field is undefined, and bot.js contains no
try/catch at all, so the exception escapes makeDecision; its caller
handleBotTurn (index.js lines 80-138) does not catch it either. -/
def makeDecisionJS (b : BotState) (gj : GameStateViewJS) (rnd : Rat) : Except String BotAction :=
  match gj.gameSettings with
  | none => .error "TypeError: cannot read initialTokens of undefined"
  | some s => .ok (makeDecisionMedium b (withSettings gj s) rnd)

/-! ## Spec-side definitions -/

/-- Modelled from the spec: the connection bonus as the specification
defines it, score(heldCards, 0) - score(heldCards ∪ \x7bcurrentCard\x7d, 0),
derived from the Scoring Engine itself. Used to compare the policy
against the scoring rule. -/
def specConnectionBonus (held : List Int) (card : Int) : Int :=
  scoreOf held 0 - scoreOf (held ++ [card]) 0

/-- One step of the run decomposition: either c extends the first run of
the groups already built (when that run starts at c + 1) or it opens a new
run. -/
def groupRunsStep (c : Int) (gs : List (List Int)) : List (List Int) :=
  match gs with
  | (d :: r) :: rs => if d = c + 1 then (c :: d :: r) :: rs else [c] :: (d :: r) :: rs
  | _ => [[c]]

/-- Decomposition of an ascending card list into its maximal runs of
consecutive integers (spec-side reading of the scoring rule). -/
def groupRuns : List Int → List (List Int)
  | [] => []
  | c :: rest => groupRunsStep c (groupRuns rest)

/-- Sum of the first (smallest, for an ascending input) member of each run. -/
def runMinimaSum (gs : List (List Int)) : Int :=
  (gs.map fun r => r.headD 0).sum

/-- Does the current player of g have the given id (turn check of
pass/takeCard)? -/
def isCurrentTurn (g : Game) (id : String) : Bool :=
  match g.players[g.currentPlayerIndex]? with
  | some p => p.id = id
  | none => false

/-! ## Concrete exemplar states -/

/-- The default settings assigned in Game.reset (game.js lines 43-49). -/
def defaultSettings : GameSettings :=
  { removedCount := 9, initialTokens := 11, showOpponentTokens := true,
    showRealTimeScore := true, turnTimeLimit := 30 }

def alice : Player := { id := "A", nickname := "Alice", tokens := 0, cards := [5], isBot := false }

def bob : Player := { id := "B", nickname := "Bob", tokens := 3, cards := [], isBot := false }

/-- A mid-round state whose current player has zero tokens. -/
def gForced : Game :=
  { players := [alice, bob], deck := [20, 21], removedCards := [9], currentCard := some 7,
    pileTokens := 2, currentPlayerIndex := 0, started := true, hostId := some "A",
    gameSettings := defaultSettings }

/-- A lobby state in which pass and takeCard are rejected. -/
def gErr : Game :=
  { players := [alice], deck := [], removedCards := [], currentCard := none, pileTokens := 0,
    currentPlayerIndex := 0, started := false, hostId := some "A",
    gameSettings := defaultSettings }

/-- A mid-round state in which exactly one card is left in the deck. -/
def gOneCard : Game :=
  { players := [bob], deck := [30], removedCards := [], currentCard := some 12, pileTokens := 0,
    currentPlayerIndex := 0, started := true, hostId := some "B",
    gameSettings := defaultSettings }

/-- A mid-round state with several cards left, current player Bob. -/
def gTake : Game :=
  { players := [bob, alice], deck := [22, 23, 24], removedCards := [], currentCard := some 15,
    pileTokens := 4, currentPlayerIndex := 0, started := true, hostId := some "B",
    gameSettings := defaultSettings }

def hostHuman : Player :=
  { id := "alice", nickname := "Alice", tokens := 0, cards := [], isBot := false }

def lobbyBot : Player := { id := "b1", nickname := "AI1", tokens := 0, cards := [], isBot := true }

/-- A lobby whose host is the only human; the other player is a bot. -/
def gHostBot : Game :=
  { players := [hostHuman, lobbyBot], deck := [], removedCards := [], currentCard := none,
    pileTokens := 0, currentPlayerIndex := 0, started := false, hostId := some "alice",
    gameSettings := defaultSettings }

/-- A lobby with a host, a bot, and another human. -/
def gHostHuman : Game :=
  { players := [hostHuman, lobbyBot, bob], deck := [], removedCards := [], currentCard := none,
    pileTokens := 0, currentPlayerIndex := 0, started := false, hostId := some "alice",
    gameSettings := defaultSettings }

/-- A two-human lobby about to be started. -/
def gLobby : Game :=
  { players := [hostHuman, bob], deck := [], removedCards := [], currentCard := none,
    pileTokens := 0, currentPlayerIndex := 0, started := false, hostId := some "alice",
    gameSettings := defaultSettings }

/-- gLobby started with the identity outcome for both shuffles. -/
def gStarted : Game := (Game.start gLobby initialDeck gLobby.players).1

/-- gStarted after the current player takes the face-up card. -/
def gAfterTake : Game := (Game.takeCard gStarted "alice").1

/-- gAfterTake after the player holding one card disconnects mid-round. -/
def gLeak : Game := Game.removePlayer gAfterTake "alice"

def scenP1 : Player :=
  { id := "P1", nickname := "P1", tokens := 2, cards := [3, 4, 5, 10], isBot := false }

def scenP2 : Player := { id := "P2", nickname := "P2", tokens := 0, cards := [7, 9], isBot := false }

/-- The two-player scoring scenario of the spec (Scenario B). -/
def gScenB : Game :=
  { players := [scenP1, scenP2], deck := [], removedCards := [], currentCard := none,
    pileTokens := 0, currentPlayerIndex := 0, started := false, hostId := some "P1",
    gameSettings := defaultSettings }

/-- A personality whose eight Math.random() draws all came out 0.5, making
every personality modifier zero. -/
def neutralPersonality : BotPersonality :=
  { riskTolerance := 0.5, greediness := 0.5, patience := 0.5, bluffing := 0.5,
    vindictiveness := 0.5, adaptability := 0.5, socialAwareness := 0.5,
    sequenceObsession := 0.5 }

/-- A medium bot holding 30 and 32 with a full token stock. -/
def botC2 : BotState :=
  { id := "B", tokens := 11, cards := [30, 32], playStyle := .random,
    personality := neutralPersonality, profiles := [] }

def viewB2 : ViewPlayer :=
  { id := "B", tokens := 11, cards := [30, 32], isBot := true, difficulty := none }

def viewH2 : ViewPlayer :=
  { id := "H", tokens := 11, cards := [], isBot := false, difficulty := none }

/-- Snapshot in which card 31 (net cost -1 for botC2) is face up. -/
def gsC2 : GameStateView :=
  { players := [viewB2, viewH2], currentCard := 31, pileTokens := 0, deckSize := 20,
    removedCount := 9, gameSettings := { initialTokens := 11, showOpponentTokens := false } }

/-- A medium bot that is out of tokens. -/
def botF : BotState :=
  { id := "B", tokens := 0, cards := [17], playStyle := .greedy,
    personality := neutralPersonality, profiles := [] }

def viewBF : ViewPlayer :=
  { id := "B", tokens := 0, cards := [17], isBot := true, difficulty := none }

def viewHF : ViewPlayer :=
  { id := "H", tokens := 11, cards := [], isBot := false, difficulty := none }

/-- Snapshot used to exercise the forced-take guard. -/
def gsF : GameStateView :=
  { players := [viewBF, viewHF], currentCard := 28, pileTokens := 3, deckSize := 12,
    removedCount := 9, gameSettings := { initialTokens := 11, showOpponentTokens := true } }

/-- A medium bot holding only card 5. -/
def botC3 : BotState :=
  { id := "B", tokens := 11, cards := [5], playStyle := .random,
    personality := neutralPersonality, profiles := [] }

/-- A medium bot holding only card 8. -/
def botC3w : BotState :=
  { id := "B", tokens := 11, cards := [8], playStyle := .random,
    personality := neutralPersonality, profiles := [] }

/-- A medium bot low on tokens, holding card 13. -/
def botC4 : BotState :=
  { id := "B", tokens := 2, cards := [13], playStyle := .random,
    personality := neutralPersonality, profiles := [] }

def viewB4 : ViewPlayer :=
  { id := "B", tokens := 2, cards := [13], isBot := true, difficulty := none }

/-- The opponent of botC4, holding no cards and t tokens. -/
def viewH4 (t : Rat) : ViewPlayer :=
  { id := "H", tokens := t, cards := [], isBot := false, difficulty := none }

/-- Two snapshots for botC4 that differ only in the hidden token count of
the opponent H (showOpponentTokens is false). -/
def gsC4 (t : Rat) : GameStateView :=
  { players := [viewB4, viewH4 t], currentCard := 14, pileTokens := 0, deckSize := 16,
    removedCount := 9, gameSettings := { initialTokens := 11, showOpponentTokens := false } }

/-- A medium bot with tokens left, for the failure-semantics claim. -/
def botC9 : BotState :=
  { id := "B", tokens := 5, cards := [], playStyle := .random,
    personality := neutralPersonality, profiles := [] }

/-- A raw snapshot whose gameSettings field is missing. -/
def gjC9 : GameStateViewJS :=
  { players := [viewH2], currentCard := 14, pileTokens := 0, deckSize := 16,
    removedCount := 9, gameSettings := none }

/-- A raw snapshot whose gameSettings field is present. -/
def gjC9w : GameStateViewJS :=
  { players := [viewH2], currentCard := 14, pileTokens := 0, deckSize := 16,
    removedCount := 9, gameSettings := some { initialTokens := 11, showOpponentTokens := true } }

/-! ## Helper lemmas -/

theorem insertAsc_perm {α : Type} [LinearOrder α] (x : α) (l : List α) :
    (insertAsc x l).Perm (x :: l) := by
  induction l with
  | nil => rfl
  | cons y ys ih =>
    by_cases h : x ≤ y
    · simp [insertAsc, h]
    · simp only [insertAsc, if_neg h]
      exact (List.Perm.cons y ih).trans (List.Perm.swap x y ys)

theorem sortAsc_perm {α : Type} [LinearOrder α] (l : List α) : (sortAsc l).Perm l := by
  induction l with
  | nil => rfl
  | cons x xs ih => exact (insertAsc_perm x (sortAsc xs)).trans (List.Perm.cons x ih)

theorem runMinimaSum_cons (r : List Int) (rs : List (List Int)) :
    runMinimaSum (r :: rs) = r.headD 0 + runMinimaSum rs := by
  simp [runMinimaSum]

theorem groupRuns_cons_shape (l : List Int) (c : Int) :
    ∃ t rs, groupRuns (c :: l) = (c :: t) :: rs := by
  induction l generalizing c with
  | nil => exact ⟨[], [], rfl⟩
  | cons d l' ih =>
    obtain ⟨t, rs, h⟩ := ih d
    have hstep : groupRuns (c :: d :: l') = groupRunsStep c (groupRuns (d :: l')) := rfl
    rw [h] at hstep
    by_cases hd : d = c + 1
    · exact ⟨d :: t, rs, by rw [hstep]; simp [groupRunsStep, hd]⟩
    · exact ⟨[], (d :: t) :: rs, by rw [hstep]; simp [groupRunsStep, hd]⟩

theorem runSumFrom_eq (l : List Int) : ∀ prev, runSumFrom prev l =
    runMinimaSum (groupRuns l) -
      (match l with | c :: _ => if c = prev + 1 then c else 0 | [] => 0) := by
  induction l with
  | nil => intro prev; simp [runSumFrom, groupRuns, runMinimaSum]
  | cons c rest ih =>
    intro prev
    cases rest with
    | nil =>
      simp only [runSumFrom, groupRuns, groupRunsStep, runMinimaSum, List.map, List.sum_cons,
        List.sum_nil, List.headD]
      split_ifs <;> omega
    | cons d r' =>
      obtain ⟨t, rs, h⟩ := groupRuns_cons_shape r' d
      have ihd := ih c
      rw [h, runMinimaSum_cons] at ihd
      have hstep : groupRuns (c :: d :: r') = groupRunsStep c (groupRuns (d :: r')) := rfl
      rw [h] at hstep
      simp only [runSumFrom] at ihd ⊢
      rw [ihd, hstep]
      by_cases hd : d = c + 1
      · simp only [groupRunsStep, if_pos hd, runMinimaSum_cons, List.headD_cons]
        split_ifs <;> omega
      · simp only [groupRunsStep, if_neg hd, runMinimaSum_cons, List.headD_cons]
        split_ifs <;> omega

theorem runSum_eq_runMinimaSum (l : List Int) : runSum l = runMinimaSum (groupRuns l) := by
  cases l with
  | nil => rfl
  | cons c rest =>
    have hrest := runSumFrom_eq rest c
    cases rest with
    | nil => simp [runSum, runSumFrom, groupRuns, groupRunsStep, runMinimaSum]
    | cons d r' =>
      obtain ⟨t, rs, h⟩ := groupRuns_cons_shape r' d
      rw [h, runMinimaSum_cons] at hrest
      have hstep : groupRuns (c :: d :: r') = groupRunsStep c (groupRuns (d :: r')) := rfl
      rw [h] at hstep
      simp only [runSum]
      rw [hrest, hstep]
      by_cases hd : d = c + 1
      · simp only [groupRunsStep, if_pos hd, runMinimaSum_cons, List.headD_cons]
        omega
      · simp only [groupRunsStep, if_neg hd, runMinimaSum_cons, List.headD_cons]
        omega

theorem playersCards_cons (p : Player) (ps : List Player) :
    playersCards (p :: ps) = (p.cards : Multiset Int) + playersCards ps := by
  simp [playersCards]

theorem playersCards_set (ps : List Player) (i : Nat) (p q : Player) (h : ps[i]? = some p) :
    playersCards (ps.set i q) + (p.cards : Multiset Int) =
      playersCards ps + (q.cards : Multiset Int) := by
  induction ps generalizing i with
  | nil => simp at h
  | cons a ps ih =>
    cases i with
    | zero =>
      simp only [List.getElem?_cons_zero, Option.some.injEq] at h
      subst h
      simp only [List.set_cons_zero, playersCards_cons]
      abel
    | succ n =>
      simp only [List.getElem?_cons_succ] at h
      simp only [List.set_cons_succ, playersCards_cons]
      have := ih n h
      calc (a.cards : Multiset Int) + playersCards (ps.set n q) + (p.cards : Multiset Int)
          = (a.cards : Multiset Int) + (playersCards (ps.set n q) + (p.cards : Multiset Int)) := by abel
        _ = (a.cards : Multiset Int) + (playersCards ps + (q.cards : Multiset Int)) := by rw [this]
        _ = (a.cards : Multiset Int) + playersCards ps + (q.cards : Multiset Int) := by abel

theorem playersCards_reset (ps : List Player) (t : Nat) :
    playersCards (ps.map fun p => { p with tokens := t, cards := ([] : List Int) }) = 0 := by
  induction ps with
  | nil => simp [playersCards]
  | cons a ps ih => simp [playersCards, List.map] at ih ⊢; exact ih


theorem cardMultiset_start (g : Game) (sd : List Int) (sp : List Player)
    (hns : g.started = false) (hsd : sd.Perm initialDeck) :
    cardMultiset (Game.start g sd sp).1 = (initialDeck : Multiset Int) := by
  unfold Game.start
  rw [if_neg (by simp [hns])]
  have htd : sd.take g.gameSettings.removedCount ++ sd.drop g.gameSettings.removedCount = sd :=
    List.take_append_drop _ _
  cases hdrop : sd.drop g.gameSettings.removedCount with
  | nil =>
    have htake : sd.take g.gameSettings.removedCount = sd := by
      rw [hdrop, List.append_nil] at htd; exact htd
    simp only [hdrop, cardMultiset, playersCards_reset, htake, Option.toList_none]
    simpa using Multiset.coe_eq_coe.mpr hsd
  | cons c rest =>
    rw [hdrop] at htd
    simp only [hdrop, cardMultiset, playersCards_reset, Option.toList_some]
    have h1 : ((sd.take g.gameSettings.removedCount : List Int) : Multiset Int) +
        ((c :: rest : List Int) : Multiset Int) = (sd : Multiset Int) := by
      rw [Multiset.coe_add, htd]
    have h2 : ((c :: rest : List Int) : Multiset Int) = {c} + (rest : Multiset Int) := by
      rw [Multiset.singleton_add]
      exact (Multiset.cons_coe c rest).symm
    rw [← Multiset.coe_eq_coe.mpr hsd, ← h1, h2, Multiset.coe_singleton]
    abel

theorem coe_cons_split (c : Int) (l : List Int) :
    ((c :: l : List Int) : Multiset Int) = {c} + (l : Multiset Int) := by
  rw [Multiset.singleton_add]
  exact (Multiset.cons_coe c l).symm

theorem playersCards_set_append (ps : List Player) (i : Nat) (p q : Player) (l : List Int)
    (hp : ps[i]? = some p) (hq : q.cards = p.cards ++ l) :
    playersCards (ps.set i q) = playersCards ps + (l : Multiset Int) := by
  have h := playersCards_set ps i p q hp
  rw [hq] at h
  have h2 : ((p.cards ++ l : List Int) : Multiset Int) =
      (p.cards : Multiset Int) + (l : Multiset Int) := (Multiset.coe_add _ _).symm
  rw [h2] at h
  have h3 : playersCards (ps.set i q) + (p.cards : Multiset Int) =
      (playersCards ps + (l : Multiset Int)) + (p.cards : Multiset Int) := by
    rw [h]; abel
  exact add_right_cancel h3

theorem playersCards_set_same (ps : List Player) (i : Nat) (p q : Player)
    (hp : ps[i]? = some p) (hq : q.cards = p.cards) :
    playersCards (ps.set i q) = playersCards ps := by
  have := playersCards_set_append ps i p q [] hp (by rw [hq, List.append_nil])
  simpa using this

theorem cardMultiset_takeCard (g : Game) (id : String) :
    cardMultiset (Game.takeCard g id).1 = cardMultiset g := by
  unfold Game.takeCard
  by_cases hs : g.started
  case neg => rw [if_pos (by simp [hs])]
  case pos =>
    rw [if_neg (by simp [hs])]
    cases hp : g.players[g.currentPlayerIndex]? with
    | none => rfl
    | some player =>
      dsimp only
      by_cases hid : player.id ≠ id
      · rw [if_pos hid]
      · rw [if_neg hid]
        cases hcc : g.currentCard with
        | none =>
          cases hdeck : g.deck with
          | nil =>
            simp only [cardMultiset, hdeck, hcc, Option.toList_none]
            by_cases hpile : g.pileTokens > 0
            · simp only [if_pos hpile]
              rw [playersCards_set_same g.players g.currentPlayerIndex player
                { player with tokens := player.tokens + g.pileTokens } hp rfl]
            · simp only [if_neg hpile]
              rw [playersCards_set_same g.players g.currentPlayerIndex player player hp rfl]
          | cons c rest =>
            simp only [cardMultiset, hdeck, hcc, Option.toList_none, Option.toList_some,
              coe_cons_split]
            by_cases hpile : g.pileTokens > 0
            · simp only [if_pos hpile]
              rw [playersCards_set_same g.players g.currentPlayerIndex player
                { player with tokens := player.tokens + g.pileTokens } hp rfl]
              abel
            · simp only [if_neg hpile]
              rw [playersCards_set_same g.players g.currentPlayerIndex player player hp rfl]
              abel
        | some c =>
          cases hdeck : g.deck with
          | nil =>
            simp only [cardMultiset, hdeck, hcc, Option.toList_none, Option.toList_some,
              Multiset.coe_singleton]
            by_cases hpile : g.pileTokens > 0
            · simp only [if_pos hpile]
              rw [playersCards_set_append g.players g.currentPlayerIndex player
                { player with cards := player.cards ++ [c], tokens := player.tokens + g.pileTokens }
                [c] hp rfl]
              simp only [Multiset.coe_singleton]
              abel
            · simp only [if_neg hpile]
              rw [playersCards_set_append g.players g.currentPlayerIndex player
                { player with cards := player.cards ++ [c] } [c] hp rfl]
              simp only [Multiset.coe_singleton]
              abel
          | cons d rest =>
            simp only [cardMultiset, hdeck, hcc, Option.toList_some, coe_cons_split,
              Multiset.coe_singleton]
            by_cases hpile : g.pileTokens > 0
            · simp only [if_pos hpile]
              rw [playersCards_set_append g.players g.currentPlayerIndex player
                { player with cards := player.cards ++ [c], tokens := player.tokens + g.pileTokens }
                [c] hp rfl]
              simp only [Multiset.coe_singleton]
              abel
            · simp only [if_neg hpile]
              rw [playersCards_set_append g.players g.currentPlayerIndex player
                { player with cards := player.cards ++ [c] } [c] hp rfl]
              simp only [Multiset.coe_singleton]
              abel

theorem cardMultiset_pass (g : Game) (id : String) :
    cardMultiset (Game.pass g id).1 = cardMultiset g := by
  unfold Game.pass
  by_cases hs : g.started
  case neg => rw [if_pos (by simp [hs])]
  case pos =>
    rw [if_neg (by simp [hs])]
    cases hp : g.players[g.currentPlayerIndex]? with
    | none => rfl
    | some player =>
      dsimp only
      by_cases hid : player.id ≠ id
      · rw [if_pos hid]
      · rw [if_neg hid]
        by_cases htok : player.tokens > 0
        · rw [if_pos htok]
          simp only [cardMultiset]
          rw [playersCards_set_same g.players g.currentPlayerIndex player
            { player with tokens := player.tokens - 1 } hp rfl]
        · rw [if_neg htok]
          exact cardMultiset_takeCard g id

theorem cardMultiset_reachableNoRemove (g : Game) (h : ReachableNoRemove g) :
    cardMultiset g = (initialDeck : Multiset Int) := by
  induction h with
  | init g sd sp hns hsd hsp => exact cardMultiset_start g sd sp hns hsd
  | stepPass g id _ ih => rw [cardMultiset_pass]; exact ih
  | stepTake g id _ ih => rw [cardMultiset_takeCard]; exact ih

theorem takeCard_err_unchanged (g : Game) (id : String) :
    (Game.takeCard g id).2.isErr = true → (Game.takeCard g id).1 = g := by
  unfold Game.takeCard
  by_cases hs : g.started
  · rw [if_neg (by simp [hs])]
    cases hp : g.players[g.currentPlayerIndex]? with
    | none => intro _; rfl
    | some player =>
      dsimp only
      by_cases hid : player.id ≠ id
      · rw [if_pos hid]; intro _; rfl
      · rw [if_neg hid]
        cases hdeck : g.deck <;> (intro h; simp [ActionResult.isErr] at h)
  · rw [if_pos (by simp [hs])]; intro _; rfl

theorem pass_err_unchanged (g : Game) (id : String) :
    (Game.pass g id).2.isErr = true → (Game.pass g id).1 = g := by
  unfold Game.pass
  by_cases hs : g.started
  · rw [if_neg (by simp [hs])]
    cases hp : g.players[g.currentPlayerIndex]? with
    | none => intro _; rfl
    | some player =>
      dsimp only
      by_cases hid : player.id ≠ id
      · rw [if_pos hid]; intro _; rfl
      · rw [if_neg hid]
        by_cases htok : player.tokens > 0
        · rw [if_pos htok]
          intro h; simp [ActionResult.isErr] at h
        · rw [if_neg htok]
          exact takeCard_err_unchanged g id
  · rw [if_pos (by simp [hs])]; intro _; rfl

/-- C1: in a started game whose current player has zero tokens, pass is
exactly takeCard — same resulting state and same returned result. -/
theorem pass_zero_tokens_eq_takeCard (g : Game) (id : String) (p : Player)
    (hs : g.started = true) (hp : g.players[g.currentPlayerIndex]? = some p)
    (hid : p.id = id) (ht : p.tokens = 0) :
    Game.pass g id = Game.takeCard g id := by
  unfold Game.pass
  rw [if_neg (by simp [hs]), hp]
  dsimp only
  rw [if_neg (by simp [hid]), if_neg (by simp [ht])]

/-- Witness for C1: a concrete started state whose current player has no
tokens, where pass and takeCard coincide. -/
theorem pass_zero_tokens_eq_takeCard_witness :
    gForced.started = true ∧ gForced.players[gForced.currentPlayerIndex]? = some alice ∧
    alice.id = "A" ∧ alice.tokens = 0 ∧ Game.pass gForced "A" = Game.takeCard gForced "A" :=
  ⟨rfl, by decide, rfl, rfl,
    pass_zero_tokens_eq_takeCard gForced "A" alice rfl (by decide) rfl rfl⟩

/-- C10: whenever pass or takeCard returns an error result, the game state
is left completely unchanged. -/
theorem error_leaves_state_unchanged (g : Game) (id : String) :
    ((Game.pass g id).2.isErr = true → (Game.pass g id).1 = g) ∧
    ((Game.takeCard g id).2.isErr = true → (Game.takeCard g id).1 = g) :=
  ⟨pass_err_unchanged g id, takeCard_err_unchanged g id⟩

/-- Witness for C10: in a non-started lobby both actions error and leave
the state untouched. -/
theorem error_leaves_state_unchanged_witness :
    (Game.pass gErr "A").2.isErr = true ∧ (Game.pass gErr "A").1 = gErr ∧
    (Game.takeCard gErr "A").2.isErr = true ∧ (Game.takeCard gErr "A").1 = gErr :=
  ⟨by decide, (error_leaves_state_unchanged gErr "A").1 (by decide), by decide,
    (error_leaves_state_unchanged gErr "A").2 (by decide)⟩

/-- C7 (amended): takeCard moves the face-up card into the current caller
hand, credits the pile, resets the pile to 0, draws the next card from the
deck front, keeps the current player index, and reports the round over
exactly when the deck was already empty at the draw (a take that empties
the deck leaves one face-up card and is not yet round over); any other
caller or a non-started state gets an error. -/
theorem takeCard_spec (g : Game) (id : String) :
    (∀ p c, g.started = true → g.players[g.currentPlayerIndex]? = some p → p.id = id →
      g.currentCard = some c →
      (Game.takeCard g id).1.players =
        g.players.set g.currentPlayerIndex
          { p with cards := p.cards ++ [c], tokens := p.tokens + g.pileTokens } ∧
      (Game.takeCard g id).1.pileTokens = 0 ∧
      (Game.takeCard g id).1.currentCard = g.deck.head? ∧
      (Game.takeCard g id).1.deck = g.deck.tail ∧
      (Game.takeCard g id).1.currentPlayerIndex = g.currentPlayerIndex ∧
      (Game.takeCard g id).2 = ActionResult.ok g.deck.isEmpty) ∧
    ((g.started = false ∨ isCurrentTurn g id = false) →
      (Game.takeCard g id).2.isErr = true) := by
  constructor
  · intro p c hs hp hid hcc
    unfold Game.takeCard
    rw [if_neg (by simp [hs]), hp]
    dsimp only
    rw [if_neg (by simp [hid]), hcc]
    dsimp only
    by_cases hpile : g.pileTokens > 0
    · rw [if_pos hpile, if_pos hpile]
      cases g.deck <;> simp
    · have hz : g.pileTokens = 0 := by omega
      rw [if_neg hpile, if_neg hpile]
      cases g.deck <;> simp [hz]
  · intro h
    unfold Game.takeCard
    rcases h with hns | hturn
    · rw [if_pos (by simp [hns])]; rfl
    · by_cases hs : g.started
      · rw [if_neg (by simp [hs])]
        unfold isCurrentTurn at hturn
        cases hp : g.players[g.currentPlayerIndex]? with
        | none => rfl
        | some player =>
          rw [hp] at hturn
          simp only [decide_eq_false_iff_not] at hturn
          dsimp only
          rw [if_pos hturn]
          rfl
      · rw [if_pos (by simp [hs])]; rfl

/-- Witness for C7: the success clause applied to a concrete started state
and the error clause applied to a non-started one. -/
theorem takeCard_spec_witness :
    ((Game.takeCard gTake "B").1.players =
        gTake.players.set gTake.currentPlayerIndex
          { bob with cards := bob.cards ++ [15], tokens := bob.tokens + gTake.pileTokens } ∧
      (Game.takeCard gTake "B").1.pileTokens = 0 ∧
      (Game.takeCard gTake "B").1.currentCard = gTake.deck.head? ∧
      (Game.takeCard gTake "B").1.deck = gTake.deck.tail ∧
      (Game.takeCard gTake "B").1.currentPlayerIndex = gTake.currentPlayerIndex ∧
      (Game.takeCard gTake "B").2 = ActionResult.ok gTake.deck.isEmpty) ∧
    (Game.takeCard gErr "A").2.isErr = true :=
  ⟨(takeCard_spec gTake "B").1 bob 15 rfl (by decide) rfl rfl,
    (takeCard_spec gErr "A").2 (Or.inl rfl)⟩

/-- Counterexample for C7 as frozen: a take that draws the last deck card
leaves the deck empty after the draw yet reports gameOver false. -/
theorem takeCard_empty_after_draw_not_over :
    gOneCard.started = true ∧ (Game.takeCard gOneCard "B").1.deck = [] ∧
    (Game.takeCard gOneCard "B").2 = ActionResult.ok false := by decide

/-- C8 (amended): when removePlayer removes the host and at least one
non-bot player remains, the host role goes to the first remaining non-bot
player; with only bots left the code falls back to players[0], a bot. -/
theorem removePlayer_host_nonbot (g : Game) (id : String) (idx : Nat) (p : Player)
    (hidx : g.players.findIdx? (fun q => q.id = id) = some idx)
    (hhost : g.hostId = some id)
    (hfind : (g.players.eraseIdx idx).find? (fun q => !q.isBot) = some p) :
    (Game.removePlayer g id).hostId = some p.id ∧ p.isBot = false := by
  have hmem : p ∈ g.players.eraseIdx idx := List.mem_of_find?_eq_some hfind
  have hlen : (g.players.eraseIdx idx).length > 0 :=
    List.length_pos.mpr (List.ne_nil_of_mem hmem)
  have hbot := List.find?_some hfind
  constructor
  · unfold Game.removePlayer
    rw [hidx]
    dsimp only
    rw [if_pos ⟨hhost, hlen⟩, hfind]
  · simpa using hbot

/-- Witness for C8: the host leaves a lobby that still contains a bot and
a human; the host role goes to the human. -/
theorem removePlayer_host_nonbot_witness :
    (Game.removePlayer gHostHuman "alice").hostId = some bob.id ∧ bob.isBot = false :=
  removePlayer_host_nonbot gHostHuman "alice" 0 bob (by decide) rfl (by decide)

/-- Counterexample for C8 as frozen: the host leaves while only a bot
remains; the bot becomes host. -/
theorem removePlayer_host_to_bot :
    gHostBot.hostId = some "alice" ∧
    (Game.removePlayer gHostBot "alice").players = [lobbyBot] ∧
    (Game.removePlayer gHostBot "alice").hostId = some "b1" ∧
    lobbyBot.isBot = true := by decide

/-- C6: the engine score is the sum over the maximal runs of consecutive
integers in the ascending sort of the smallest member of each run, minus
the token count; scenario B evaluates and ranks as the spec states. -/
theorem score_runs_spec :
    (∀ (cards : List Int) (tokens : Nat),
        scoreOf cards tokens = runMinimaSum (groupRuns (sortAsc cards)) - (tokens : Int)) ∧
    scoreOf [3, 4, 5, 10] 2 = 11 ∧ scoreOf [7, 9] 0 = 16 ∧
    (Game.calculateScores gScenB).map (fun r => (r.nickname, r.score, r.rank)) =
      [("P1", 11, 1), ("P2", 16, 2)] := by
  refine ⟨fun cards tokens => ?_, by decide, by decide, by decide⟩
  unfold scoreOf
  rw [runSum_eq_runMinimaSum]

/-- C5 (amended): along any round played without mid-game disconnections,
the cards in hands, deck, removed set and face-up card are exactly the 33
cards 3..35 — 33 in total, each in exactly one place. -/
theorem card_conservation (g : Game) (h : ReachableNoRemove g) :
    cardMultiset g = (initialDeck : Multiset Int) ∧
    Multiset.card (cardMultiset g) = 33 ∧ (cardMultiset g).Nodup := by
  have hm := cardMultiset_reachableNoRemove g h
  refine ⟨hm, ?_, ?_⟩
  · rw [hm]; decide
  · rw [hm]; decide

/-- Witness for C5: the conservation invariant evaluated on a concrete
freshly started two-player game. -/
theorem card_conservation_witness :
    cardMultiset gStarted = (initialDeck : Multiset Int) ∧
    Multiset.card (cardMultiset gStarted) = 33 ∧ (cardMultiset gStarted).Nodup :=
  card_conservation gStarted
    (ReachableNoRemove.init gLobby initialDeck gLobby.players rfl
      (List.Perm.refl _) (List.Perm.refl _))

/-- Counterexample for C5 as frozen: removing a card-holding player
mid-round is reachable and leaves only 32 cards in play while the round is
still in progress. -/
theorem card_conservation_broken_by_remove :
    Reachable gLeak ∧ gLeak.started = true ∧ Multiset.card (cardMultiset gLeak) = 32 :=
  ⟨Reachable.stepRemove _ "alice" (Reachable.stepTake _ "alice"
      (Reachable.init gLobby initialDeck gLobby.players rfl
        (List.Perm.refl _) (List.Perm.refl _))),
    by decide, by decide⟩

/-- C2 (amended): the guaranteed-take guard of the medium decision
pipeline is tokenCount = 0: for every snapshot and every randomization
outcome a bot with no tokens returns take. A net cost that is zero or
negative does not by itself force take. -/
theorem mediumDecision_forced_take (b : BotState) (gs : GameStateView) (rnd : Rat)
    (h : b.tokens = 0) : makeDecisionMedium b gs rnd = BotAction.take := by
  unfold makeDecisionMedium mediumDecision
  simp [h]

/-- Witness for C2: a concrete token-less medium bot takes. -/
theorem mediumDecision_forced_take_witness :
    botF.tokens = 0 ∧ makeDecisionMedium botF gsF (1/2) = BotAction.take :=
  ⟨rfl, mediumDecision_forced_take botF gsF (1/2) rfl⟩

/-- C9 (amended): makeDecision contains no error containment. On a raw
snapshot whose gameSettings field is present the medium pipeline is total
and returns take or pass; when the field is missing the TypeError
propagates to the caller instead of resolving to any fail-safe action. -/
theorem makeDecisionJS_total_on_wellformed (b : BotState) (gj : GameStateViewJS) (rnd : Rat)
    (s : BotSettings) (h : gj.gameSettings = some s) :
    makeDecisionJS b gj rnd = Except.ok (makeDecisionMedium b (withSettings gj s) rnd) ∧
    (makeDecisionJS b gj rnd = Except.ok BotAction.take ∨
      makeDecisionJS b gj rnd = Except.ok BotAction.pass) := by
  unfold makeDecisionJS
  rw [h]
  dsimp only
  refine ⟨rfl, ?_⟩
  cases makeDecisionMedium b (withSettings gj s) rnd
  · exact Or.inl rfl
  · exact Or.inr rfl

/-- Witness for C9: the totality clause at a concrete well-formed
snapshot. -/
theorem makeDecisionJS_total_witness :
    makeDecisionJS botC9 gjC9w (1/2) =
      Except.ok (makeDecisionMedium botC9
        (withSettings gjC9w { initialTokens := 11, showOpponentTokens := true }) (1/2)) :=
  (makeDecisionJS_total_on_wellformed botC9 gjC9w (1/2)
    { initialTokens := 11, showOpponentTokens := true } rfl).1

/-- Counterexample for C9 as frozen: with tokens left the fail-safe would
be defer, but a snapshot missing gameSettings makes makeDecision raise a
TypeError that propagates to the caller. -/
theorem makeDecisionJS_error_propagates :
    botC9.tokens = 5 ∧
    makeDecisionJS botC9 gjC9 (1/2) =
      Except.error "TypeError: cannot read initialTokens of undefined" :=
  ⟨rfl, rfl⟩

/-- C3 (amended): the connection bonus the policy uses is an independent
heuristic, +5 for each held card at distance exactly 1 from the candidate,
not the scoring-derived marginal; the full valuation decomposes as
-card + heuristic bonus + low-card bonus. -/
theorem evaluateCardValue_heuristic (b : BotState) (card : Rat) (h : card ≠ 0) :
    evaluateCardValue b card =
      -card + connectionBonusCode b.cards card +
        (if card ≤ 10 then 3 else if card ≤ 20 then 1 else 0) := by
  unfold evaluateCardValue
  rw [if_neg h]
  have hperm : (sortAsc b.cards).Perm b.cards := sortAsc_perm b.cards
  have hsum : connectionBonusCode (sortAsc b.cards) card = connectionBonusCode b.cards card := by
    unfold connectionBonusCode
    exact List.Perm.sum_eq (hperm.map _)
  rw [hsum]

/-- Witness for C3: the decomposition at a concrete bot holding card 8 and
candidate card 7. -/
theorem evaluateCardValue_heuristic_witness :
    (7 : Rat) ≠ 0 ∧
    evaluateCardValue botC3w 7 =
      -7 + connectionBonusCode botC3w.cards 7 +
        (if (7 : Rat) ≤ 10 then 3 else if (7 : Rat) ≤ 20 then 1 else 0) :=
  ⟨by simp, evaluateCardValue_heuristic botC3w 7 (by simp)⟩

/-- Counterexample for C3 as frozen: holding [5] with candidate 6, the
scoring-derived bonus is 0 but the policy credits +5, so its valuation (2)
differs from the scoring-derived valuation (-3). -/
theorem connection_bonus_not_scoring_derived :
    specConnectionBonus [5] 6 = 0 ∧
    connectionBonusCode [(5 : Rat)] 6 = 5 ∧
    evaluateCardValue botC3 6 = 2 ∧
    evaluateCardValue botC3 6 ≠ -(6 : Rat) + ((specConnectionBonus [5] 6 : Int) : Rat) + 3 := by
  have h0 : specConnectionBonus [5] 6 = 0 := by decide
  have h1 : connectionBonusCode [(5 : Rat)] 6 = 5 := by
    norm_num [connectionBonusCode]
  have h2 : evaluateCardValue botC3 6 = 2 := by
    norm_num [evaluateCardValue, botC3, sortAsc, insertAsc, connectionBonusCode]
  refine ⟨h0, h1, h2, ?_⟩
  rw [h2, h0]
  norm_num

/-- Counterexample for C2 as frozen: with held cards [30, 32] and face-up
card 31 the scoring-derived net cost is -1 ≤ 0, yet the medium pipeline
(style random, neutral personality, median randomization) defers. -/
theorem netcost_dominance_fails :
    (31 : Int) - specConnectionBonus [30, 32] 31 - 0 ≤ 0 ∧
    makeDecisionMedium botC2 gsC2 (1/2) = BotAction.pass := by
  constructor
  · decide
  · have hne : ¬ ("H" : String) = "B" := by decide
    norm_num [hne, makeDecisionMedium, mediumDecision, mkGameInfo, updateAllPlayerProfiles,
      initializePlayerProfile, getProfile, setProfile, analyzePlayerTendencies,
      assignBotPersonality, defaultProfile, estimateGameProgress, getStyleModifiers,
      getPersonalityModifiers, evaluateCardValue, connectionBonusCode, evaluateTokenCost,
      evaluateDynamicTokenValue, calculateTokenRoi, calculateOpponentBurden,
      calculatePlayerSpecificStrategy, estimatePlayerTokens, isSequenceCard,
      applyPlayStyleStrategy, evaluateBasicSequence, evaluateBasicOpponentPressure,
      estimateCardFromValue, evaluateSequencePotential, evaluateTokenFarmingOpportunity,
      botC2, gsC2, viewB2, viewH2, neutralPersonality, sortAsc, insertAsc,
      List.filter_cons, List.filter_nil, List.foldl_cons, List.foldl_nil,
      min_def, max_def]

/-- C4: with showOpponentTokens = false, two snapshots that differ only in
the hidden token count of opponent H (20 vs 0 tokens) drive the same
medium bot, with the same randomization, to take in one and defer in the
other: the decision reads hidden opponent token counts. -/
theorem decision_depends_on_hidden_tokens :
    (gsC4 20).gameSettings.showOpponentTokens = false ∧
    (gsC4 0).gameSettings.showOpponentTokens = false ∧
    makeDecisionMedium botC4 (gsC4 20) (1/2) = BotAction.take ∧
    makeDecisionMedium botC4 (gsC4 0) (1/2) = BotAction.pass := by
  have hne : ¬ ("H" : String) = "B" := by decide
  refine ⟨rfl, rfl, ?_, ?_⟩ <;>
    norm_num [hne, makeDecisionMedium, mediumDecision, mkGameInfo, updateAllPlayerProfiles,
      initializePlayerProfile, getProfile, setProfile, analyzePlayerTendencies,
      assignBotPersonality, defaultProfile, estimateGameProgress, getStyleModifiers,
      getPersonalityModifiers, evaluateCardValue, connectionBonusCode, evaluateTokenCost,
      evaluateDynamicTokenValue, calculateTokenRoi, calculateOpponentBurden,
      calculatePlayerSpecificStrategy, estimatePlayerTokens, isSequenceCard,
      applyPlayStyleStrategy, evaluateBasicSequence, evaluateBasicOpponentPressure,
      estimateCardFromValue, evaluateSequencePotential, evaluateTokenFarmingOpportunity,
      botC4, gsC4, viewB4, viewH4, neutralPersonality, sortAsc, insertAsc,
      List.filter_cons, List.filter_nil, List.foldl_cons, List.foldl_nil,
      min_def, max_def]
